import Mathlib

/-!
Verification of the heimdall-admission webhook (Go sources under
`cmd/admission/`).  The development shallowly embeds the decision pipeline:

* `processResourceChanges` (cmd/admission/main.go) — the ownership policy
  engine deciding allow/deny from the old/new object snapshots;
* `doServeAdmitFunc` / `isKubeNamespace` (cmd/admission/admission_controller.go)
  — the webhook transport;
* `getBrokerList` / the producer configuration of `queueResourceForReconcile`
  (cmd/admission/main.go) — broker discovery and the reconciliation publisher.

Decoded Kubernetes objects (`unstructured.Unstructured`, i.e. Go
`map[string]interface{}` trees produced by `json.Unmarshal`) are modelled by
`JsonVal` trees whose objects are association lists with distinct keys.
Numbers are modelled by `Int` (Go decodes every JSON number to `float64`; the
claims under study never compare distinct numerals denoting the same float,
so an integer index of numeric literals is adequate).  Network effects
(Kafka publish, Kubernetes service query, HTTP body reads) are modelled by
explicit outcome parameters, as the Go code performs them through opaque
clients.
-/

namespace Heimdall

/-- Decoded JSON value, the model of a Go `interface{}` produced by
`json.Unmarshal`: `null`, booleans, numbers, strings, `[]interface{}` and
`map[string]interface{}` (an association list with distinct keys). -/
inductive JsonVal where
  | null : JsonVal
  | bool (b : Bool) : JsonVal
  | num (n : Int) : JsonVal
  | str (s : String) : JsonVal
  | arr (xs : List JsonVal) : JsonVal
  | obj (fields : List (String × JsonVal)) : JsonVal
deriving Repr

/-- A decoded JSON object (`map[string]interface{}`): association list with
distinct keys. -/
def JsonObj := List (String × JsonVal)

mutual
/-- Go `reflect.DeepEqual` on decoded JSON values.  Maps compare by length
plus key-wise lookup (order-insensitive); slices compare by length plus
element-wise equality. -/
def deepEqual : JsonVal → JsonVal → Bool
  | .null, .null => true
  | .bool a, .bool b => a == b
  | .num a, .num b => a == b
  | .str a, .str b => a == b
  | .arr xs, .arr ys => deepEqualArr xs ys
  | .obj xs, .obj ys => xs.length == ys.length && deepSub xs ys
  | _, _ => false
termination_by a b => sizeOf a + sizeOf b

/-- Element-wise `reflect.DeepEqual` on decoded JSON arrays. -/
def deepEqualArr : List JsonVal → List JsonVal → Bool
  | [], [] => true
  | x :: xs, y :: ys => deepEqual x y && deepEqualArr xs ys
  | _, _ => false
termination_by xs ys => sizeOf xs + sizeOf ys

/-- Every key of the first object is present in the second with a
`deepEqual` value (the map direction of `reflect.DeepEqual`). -/
def deepSub : List (String × JsonVal) → List (String × JsonVal) → Bool
  | [], _ => true
  | (k, v) :: rest, ys => deepMemEq k v ys && deepSub rest ys
termination_by xs ys => sizeOf xs + sizeOf ys

/-- Key `k` occurs in the object with a value `deepEqual` to `v`. -/
def deepMemEq : String → JsonVal → List (String × JsonVal) → Bool
  | _, _, [] => false
  | k, v, (k2, v2) :: rest => (k == k2 && deepEqual v v2) || deepMemEq k v rest
termination_by _ v ys => sizeOf v + sizeOf ys
end

/-- Lookup of a key in a decoded JSON object. -/
def lookupJ (o : JsonObj) (k : String) : Option JsonVal :=
  (o.find? (fun kv => kv.1 == k)).map (fun kv => kv.2)

/-- Go map indexing `m[k]` on a `map[string]interface{}`: a missing key
yields the untyped `nil` interface, which coincides with the decoding of a
JSON `null`. -/
def indexD (o : JsonObj) (k : String) : JsonVal :=
  (lookupJ o k).getD JsonVal.null

/-- Go map indexing `m[k]` on a `map[string]string`: a missing key yields
the zero value `""`. -/
def lookupS (m : List (String × String)) (k : String) : String :=
  ((m.find? (fun kv => kv.1 == k)).map (fun kv => kv.2)).getD ""

/-- String content of a decoded JSON value, when it is a string. -/
def asString : JsonVal → Option String
  | .str s => some s
  | _ => none

/-- Model of `unstructured.Unstructured.GetLabels`: reads
`metadata.labels`, succeeding only when that field is a map whose values
are all strings (`NestedStringMap` is all-or-nothing); every failure mode
returns the `nil` map, modelled as `[]`. -/
def getLabels (o : JsonObj) : List (String × String) :=
  match indexD o "metadata" with
  | .obj m =>
    match indexD m "labels" with
    | .obj ls =>
      if ls.all (fun kv => (asString kv.2).isSome) then
        ls.filterMap (fun kv => (asString kv.2).map (fun s => (kv.1, s)))
      else []
    | _ => []
  | _ => []

/-- Character-list version of prefix testing, used by `strHas`. -/
def prefChars : List Char → List Char → Bool
  | [], _ => true
  | _ :: _, [] => false
  | a :: as, b :: bs => a == b && prefChars as bs

/-- Character-list version of substring testing, used by `strHas`. -/
def subChars (sub : List Char) : List Char → Bool
  | [] => prefChars sub []
  | c :: rest => prefChars sub (c :: rest) || subChars sub rest

/-- Go `strings.Contains s sub`. -/
def strHas (s sub : String) : Bool :=
  subChars sub.toList s.toList

/-- Go `strings.Replace s " " "" -1`: every space removed. -/
def removeSpaces (s : String) : String :=
  String.mk (s.toList.filter (fun c => c != ' '))

/-- Go `strings.Split s ":"` followed by taking index 0: the part of the
string before the first colon (`strings.Split` always returns a non-empty
slice). -/
def splitHostPart (s : String) : String :=
  (s.splitOn ":").headD ""

/-! Constants of cmd/admission/main.go and admission_controller.go. -/

/-- Constant `ownerLabel` (main.go). -/
def ownerLabel : String := "app.heimdall.io/owner"

/-- Constant `priorityLabel` (main.go). -/
def priorityLabel : String := "app.heimdall.io/priority"

/-- Constant `jsonContentType` (admission_controller.go). -/
def jsonContentType : String := "application/json"

/-- Constant `namespace` (main.go): the namespace queried for broker
services. -/
def heimdallNamespace : String := "heimdall"

/-- Constant `kafkaClusterName` (main.go). -/
def kafkaClusterName : String := "heimdall-kafka-cluster"

/-- Constant `heimdallTopic` (main.go). -/
def heimdallTopic : String := "heimdall-topic"

/-- Model of `isKubeNamespace` (admission_controller.go): true exactly on
`metav1.NamespacePublic` (`"kube-public"`) and `metav1.NamespaceSystem`
(`"kube-system"`). -/
def isKubeNamespace (ns : String) : Bool :=
  ns == "kube-public" || ns == "kube-system"

/-! The ownership policy engine: `processResourceChanges` of
cmd/admission/main.go. -/

/-- A raw object payload (`runtime.RawExtension.Raw` bytes) modelled by the
outcome of `json.Unmarshal` into an `unstructured.Unstructured`: either the
decoded object map, or a decode failure with its message. -/
inductive RawDoc where
  | ok (o : JsonObj) : RawDoc
  | bad (e : String) : RawDoc

/-- The fields of `v1beta1.AdmissionRequest` read by the admission
controller.  `Kind`, `Group`, `Version` are the components of the request's
`Kind` (a `metav1.GroupVersionKind`). -/
structure AdmissionRequest where
  UID : String
  Name : String
  Namespace : String
  Kind : String
  Group : String
  Version : String
  OldObject : RawDoc
  Object : RawDoc

/-- The `patchOperation` struct of admission_controller.go: one RFC-6902
JSON Patch operation (`Value` is `none` when the optional field is
omitted). -/
structure patchOperation where
  Op : String
  Path : String
  Value : Option JsonVal

/-- The `ResourceDetails` struct of main.go, the payload of every
reconciliation publish (its `MessageID` is a freshly generated UUID,
modelled as a string parameter). -/
structure ResourceDetails where
  MessageID : String
  Name : String
  Namespace : String
  Kind : String
  Group : String
  Version : String
deriving Repr, DecidableEq

/-- Result of one `processResourceChanges` call: the returned patch slice
(`none` models Go `nil`), the returned error's message (`none` models a
`nil` error, i.e. allow), and the list of reconciliation-publish attempts
made during the call (each attempt carries the `ResourceDetails` payload
handed to `queueResourceForReconcile`, whether or not the publish
succeeded). -/
structure PolicyResult where
  patches : Option (List patchOperation)
  errMsg : Option String
  published : List ResourceDetails

/-- Message of the error returned when the existing object fails to decode
(main.go line 65; the source misspells "admission" here). -/
def decodeOldFailMsg (e : String) : String :=
  "ERROR: admision controller failed decoding existing object: " ++ e

/-- Message of the error returned when the new object fails to decode
(main.go line 69). -/
def decodeNewFailMsg (e : String) : String :=
  "ERROR: admission controller failed decoding new object: " ++ e

/-- Message of the error returned when `queueResourceForReconcile` fails
(main.go lines 90 and 107). -/
def queueFailMsg (e : String) : String :=
  "ERROR: failed to queue resource for reconcile: " ++ e

/-- Message of the spec-change denial (main.go line 93). -/
def deniedSpecMsg (senderIP : String) : String :=
  "DENIED: non-owner " ++ senderIP ++ " cannot change Spec"

/-- Message of the label-change denial (main.go line 110). -/
def deniedLabelMsg (k v : String) : String :=
  "DENIED: non-owner changes are not permitted to non-Heimdall label (" ++
    k ++ ": " ++ v ++ ")"

/-- The `allowedLabels` set of main.go (a `map[string]bool` with both
entries true; membership is the `_, ok :=` lookup). -/
def allowedLabels : List String := [ownerLabel, priorityLabel]

/-- The label-scan loop of main.go lines 103-112: the first label of the
new object whose key is outside `allowedLabels` and whose value differs
from the existing object's value for that key (a missing key reading as
`""`).  Go iterates the map in unspecified order; the model fixes the
association-list order, which is irrelevant to whether an offender exists. -/
def findOffendingLabel (existingLabels newLabels : List (String × String)) :
    Option (String × String) :=
  newLabels.find? (fun kv =>
    !(allowedLabels.contains kv.1) && !(lookupS existingLabels kv.1 == kv.2))

/-- Model of `processResourceChanges` (main.go lines 42-117).  `msgId`
stands for the `uuid.New()` value; `pub` is the outcome a call to
`queueResourceForReconcile` would have (`none` = success, `some e` =
failure with message `e`) — the Go function performs at most one such call.
The `json.Marshal` of `ResourceDetails` (lines 55-59) cannot fail for this
struct and is modelled as always succeeding. -/
def processResourceChanges (req : AdmissionRequest) (senderIP : String)
    (msgId : String) (pub : Option String) : PolicyResult :=
  let resourceDetails : ResourceDetails :=
    ⟨msgId, req.Name, req.Namespace, req.Kind, req.Group, req.Version⟩
  match req.OldObject with
  | .bad e => ⟨none, some (decodeOldFailMsg e), []⟩
  | .ok existingObj =>
    match req.Object with
    | .bad e => ⟨none, some (decodeNewFailMsg e), []⟩
    | .ok newObj =>
      if deepEqual (.obj existingObj) (.obj newObj) then
        ⟨none, none, []⟩
      else
        let ownerIP := lookupS (getLabels existingObj) ownerLabel
        if senderIP == ownerIP then
          ⟨none, none, []⟩
        else if !deepEqual (indexD existingObj "spec") (indexD newObj "spec") then
          match pub with
          | some e => ⟨none, some (queueFailMsg e), [resourceDetails]⟩
          | none => ⟨none, some (deniedSpecMsg senderIP), [resourceDetails]⟩
        else
          match findOffendingLabel (getLabels existingObj) (getLabels newObj) with
          | some kv =>
            match pub with
            | some e => ⟨none, some (queueFailMsg e), [resourceDetails]⟩
            | none => ⟨none, some (deniedLabelMsg kv.1 kv.2), [resourceDetails]⟩
          | none => ⟨none, none, []⟩

/-! The webhook transport: `doServeAdmitFunc` of
cmd/admission/admission_controller.go. -/

/-- Observable steps of one `doServeAdmitFunc` call, in execution order.
`readBody` is the `ioutil.ReadAll(r.Body)` at line 59, `ctCheck` the
Content-Type comparison at line 68, `decodeEnvelope` the
`universalDeserializer.Decode` at line 80, `invokeAdmit` the call of the
`admitFunc` at line 142. -/
inductive TEvent where
  | readBody : TEvent
  | ctCheck : TEvent
  | decodeEnvelope : TEvent
  | invokeAdmit : TEvent
deriving Repr, DecidableEq

/-- Outcome of decoding the request body as an admission-review envelope
(lines 80-88 plus the second JSON decode of lines 94-105): decode failure,
a decoded envelope whose inner `Request` is `nil`, or an envelope carrying
the inner request together with the decoded `request.object` JSON map (the
code re-parses the body and type-asserts `request.object`; the model covers
bodies where that field is a JSON map — when it is absent the Go code
panics on the type assertion before producing any response). -/
inductive Envelope where
  | undecodable (e : String) : Envelope
  | nilRequest : Envelope
  | withRequest (req : AdmissionRequest) (objectJson : JsonObj) : Envelope

/-- An inbound HTTP request as `doServeAdmitFunc` consumes it: the method,
the Content-Type header, the peer address `r.RemoteAddr`, and the body,
modelled by the outcome of `ioutil.ReadAll` (`Except.error` = read failure)
followed by envelope decoding. -/
structure HttpRequest where
  method : String
  contentType : String
  remoteAddr : String
  body : Except String Envelope

/-- The response structure assembled by `doServeAdmitFunc` (the fields of
`v1beta1.AdmissionResponse` it touches).  `Patch = none` models a `Patch`
field never assigned (Go `nil` bytes); `Patch = some ops` models
`json.Marshal` of the returned patch slice being stored (a `nil` slice
marshals to the JSON text `null`, still a present field). -/
structure AdmissionResponse where
  UID : String
  Allowed : Bool
  Patch : Option (List patchOperation)
  PatchTypeSet : Bool
  Message : Option String

/-- Outcome of one `doServeAdmitFunc` call: either an error return (the
HTTP status already written plus the error's message — `serveAdmitFunc`
then answers with that message), or the marshalled admission-review
response (response marshalling cannot fail for this structure). -/
inductive TransportOutcome where
  | fail (status : Nat) (msg : String) : TransportOutcome
  | ok (resp : AdmissionResponse) : TransportOutcome

/-- The `admitFunc` type of admission_controller.go:
`func(*v1beta1.AdmissionRequest, string, string) ([]patchOperation, error)`
modelled by its returned patch slice and error message. -/
def AdmitFunc :=
  AdmissionRequest → String → String →
    Option (List patchOperation) × Option String

/-- Message of the method rejection (line 54). -/
def invalidMethodMsg (m : String) : String :=
  "invalid method " ++ m ++ ", only POST requests are allowed"

/-- Message of a body read failure (line 63). -/
def bodyReadFailMsg (e : String) : String :=
  "could not read request body: " ++ e

/-- Message of the content-type rejection (line 71). -/
def unsupportedCTMsg (ct : String) : String :=
  "unsupported content type " ++ ct ++ ", only application/json is supported"

/-- Message of an envelope decode failure (line 83). -/
def deserializeFailMsg (e : String) : String :=
  "could not deserialize request: " ++ e

/-- Message of the missing-inner-request rejection (line 87). -/
def nilRequestMsg : String :=
  "malformed admission review: request is nil"

/-- Model of `doServeAdmitFunc` (admission_controller.go lines 49-177),
returning the outcome together with the trace of observable steps, in the
order the Go code performs them.  Notable source facts mirrored here: the
body is read (line 59) before the Content-Type header is checked (line 68);
the owner identity is read from the *new* object's ownership label (lines
104-108) and falls back to the sender when empty (lines 122-125); and when
the namespace is a Kubernetes namespace the whole decision/response-filling
block (lines 141-166) is skipped, leaving the response at its zero value
(`Allowed = false`) with only the UID set. -/
def doServeAdmitFunc (r : HttpRequest) (adm : AdmitFunc) :
    TransportOutcome × List TEvent :=
  if r.method != "POST" then
    (.fail 405 (invalidMethodMsg r.method), [])
  else
    match r.body with
    | .error e => (.fail 400 (bodyReadFailMsg e), [.readBody])
    | .ok env =>
      if r.contentType != jsonContentType then
        (.fail 400 (unsupportedCTMsg r.contentType), [.readBody, .ctCheck])
      else
        match env with
        | .undecodable e =>
          (.fail 400 (deserializeFailMsg e), [.readBody, .ctCheck, .decodeEnvelope])
        | .nilRequest =>
          (.fail 400 nilRequestMsg, [.readBody, .ctCheck, .decodeEnvelope])
        | .withRequest req objectJson =>
          let ownerIP0 := lookupS (getLabels objectJson) ownerLabel
          let senderIP := splitHostPart r.remoteAddr
          let ownerIP := if ownerIP0 == "" then senderIP else ownerIP0
          let base : AdmissionResponse :=
            { UID := req.UID, Allowed := false, Patch := none,
              PatchTypeSet := false, Message := none }
          if !(isKubeNamespace req.Namespace) then
            match adm req senderIP ownerIP with
            | (_, some m) =>
              (.ok { base with Allowed := false, Message := some m },
               [.readBody, .ctCheck, .decodeEnvelope, .invokeAdmit])
            | (patchOps, none) =>
              let resp := { base with
                            Allowed := true
                            Patch := some (patchOps.getD [])
                            PatchTypeSet := true }
              (.ok resp, [.readBody, .ctCheck, .decodeEnvelope, .invokeAdmit])
          else
            (.ok base, [.readBody, .ctCheck, .decodeEnvelope])

/-! Broker discovery: `getBrokerList` of cmd/admission/main.go. -/

/-- The fields of a Kubernetes `corev1.Service` read by `getBrokerList`. -/
structure K8sService where
  Name : String
  ClusterIP : String
deriving Repr, DecidableEq

/-- Model of the broker-list construction of `getBrokerList` (main.go lines
206-224): the service query result is a parameter (the query itself is an
external cluster-API call, already filtered by the `strimzi.io/cluster` and
`strimzi.io/kind` label selector).  The Go code allocates
`make([]string, len(svcList.Items))` and assigns only the indices whose
service passes the filter, so filtered-out services leave the zero value
`""` in place. -/
def getBrokerList (items : List K8sService) : List String :=
  items.map (fun svc =>
    if svc.ClusterIP != "None" && strHas svc.Name "bootstrap" then
      removeSpaces (svc.ClusterIP ++ ":9092")
    else "")

/-! The reconciliation publisher's producer configuration
(`queueResourceForReconcile`, main.go lines 156-167). -/

/-- The `sarama.RequiredAcks` values: `noResponse` (sarama `NoResponse`,
0) sends without waiting for any broker acknowledgement; `waitForLocal`
waits for the local commit; `waitForAll` for all in-sync replicas. -/
inductive RequiredAcks where
  | noResponse : RequiredAcks
  | waitForLocal : RequiredAcks
  | waitForAll : RequiredAcks
deriving Repr, DecidableEq

/-- The producer-relevant fields of a `sarama.Config`. -/
structure ProducerConfig where
  returnSuccesses : Bool
  returnErrors : Bool
  requiredAcks : RequiredAcks
deriving Repr, DecidableEq

/-- The `sarama.NewConfig()` defaults for these fields. -/
def newConfig : ProducerConfig :=
  { returnSuccesses := false, returnErrors := true,
    requiredAcks := .waitForLocal }

/-- The configuration `queueResourceForReconcile` builds before opening its
`sarama.NewSyncProducer` connection (main.go lines 157-160). -/
def producerConfig : ProducerConfig :=
  { newConfig with
    returnSuccesses := true
    returnErrors := true
    requiredAcks := .noResponse }

/-- Following the spec's words: a producer configuration "requires broker
acknowledgment" of a send when its `RequiredAcks` level makes the broker
answer, i.e. is not `NoResponse`. -/
def specRequiresBrokerAck (c : ProducerConfig) : Bool :=
  c.requiredAcks != RequiredAcks.noResponse

/-! Concrete inputs used by counterexamples and witnesses. -/

/-- A decision callback (`AdmitFunc`) that allows with no patches, standing in for an
arbitrary policy outcome where the policy engine is never reached. -/
def noopAdmit : AdmitFunc := fun _ _ _ => (none, none)

/-- A well-formed admission request targeting the `kube-system`
namespace. -/
def kubeNsReq : AdmissionRequest :=
  { UID := "uid-1", Name := "web", Namespace := "kube-system",
    Kind := "Deployment", Group := "apps", Version := "v1",
    OldObject := .ok [], Object := .ok [] }

/-- An HTTP POST carrying `kubeNsReq`, with the correct content type. -/
def kubeNsHttpReq : HttpRequest :=
  { method := "POST", contentType := "application/json",
    remoteAddr := "10.0.0.9:54321",
    body := .ok (.withRequest kubeNsReq []) }

/-- An HTTP POST with a non-JSON content type and a readable body. -/
def badCTHttpReq : HttpRequest :=
  { method := "POST", contentType := "text/plain",
    remoteAddr := "10.0.0.9:54321", body := .ok .nilRequest }

/-- Registry query result with one bootstrap service and one headless
(filtered-out) service. -/
def mixedSvcItems : List K8sService :=
  [⟨"heimdall-kafka-cluster-kafka-bootstrap", "10.96.0.7"⟩,
   ⟨"heimdall-kafka-cluster-kafka-brokers", "None"⟩]

/-- Following the spec's words: the broker list claimed by the spec —
exactly the `address:fixedPort` endpoints of the services whose virtual
address is assigned and whose name matches the bootstrap convention, and
nothing else. -/
def specBrokerEndpoints (items : List K8sService) : List String :=
  (items.filter (fun svc => svc.ClusterIP != "None" && strHas svc.Name "bootstrap")).map
    (fun svc => removeSpaces (svc.ClusterIP ++ ":9092"))

/-! Claims. -/

/-- C1: the claim says every admission request targeting `kube-system` or
`kube-public` gets `allowed=true` with no patch.  The code instead skips
the whole response-filling block for Kubernetes namespaces, leaving
`Response.Allowed` at its Go zero value `false`: at this concrete
`kube-system` request (with a decision callback that would allow), the
transport produces `allowed=false`, no patch, no message — the policy
engine is indeed bypassed (no `invokeAdmit` event) and no patch is carried,
but the response denies instead of allowing. -/
theorem c1_kube_namespace_response_left_denied :
    doServeAdmitFunc kubeNsHttpReq noopAdmit =
      (.ok { UID := "uid-1", Allowed := false, Patch := none,
             PatchTypeSet := false, Message := none },
       [.readBody, .ctCheck, .decodeEnvelope]) ∧
    isKubeNamespace "kube-system" = true := by
  exact ⟨rfl, rfl⟩

/-- C7 counterexample: the claim says a request with a non-JSON
content-type fails before the body is read.  At this concrete request the
transport does fail with the unsupported-content-type error, but its trace
records the body read happening first. -/
theorem c7_counterexample_body_read_first :
    (doServeAdmitFunc badCTHttpReq noopAdmit).1 =
      .fail 400 (unsupportedCTMsg "text/plain") ∧
    TEvent.readBody ∈ (doServeAdmitFunc badCTHttpReq noopAdmit).2 := by
  exact ⟨rfl, by decide⟩

/-- C7 amended: for every POST request whose body read succeeds and whose
Content-Type header is not exactly `application/json`, the transport fails
with the unsupported-content-type error — but only after reading the
request body: the trace is exactly body-read followed by the content-type
check. -/
theorem c7_amended_content_type_rejected_after_body_read
    (r : HttpRequest) (adm : AdmitFunc) (env : Envelope)
    (hm : r.method = "POST") (hb : r.body = .ok env)
    (hct : r.contentType ≠ jsonContentType) :
    doServeAdmitFunc r adm =
      (.fail 400 (unsupportedCTMsg r.contentType),
       [TEvent.readBody, TEvent.ctCheck]) := by
  unfold doServeAdmitFunc
  rw [hm, hb]
  simp [hct]

/-- C7 witness: the amended theorem applied at a concrete request with
content type `application/xml`. -/
theorem c7_amended_witness :
    doServeAdmitFunc
      { method := "POST", contentType := "application/xml",
        remoteAddr := "10.0.0.1:1", body := .ok .nilRequest } noopAdmit =
      (.fail 400 (unsupportedCTMsg "application/xml"),
       [TEvent.readBody, TEvent.ctCheck]) :=
  c7_amended_content_type_rejected_after_body_read _ noopAdmit .nilRequest
    rfl rfl (by decide)

/-- C8 counterexample: the claim says broker discovery returns exactly the
endpoints of the services passing the filter and no other elements.  On a
query result with one bootstrap service and one headless service, the code
returns a two-element list whose second element is the empty-string
placeholder left by `make([]string, len)`, differing from the claimed
list. -/
theorem c8_counterexample_placeholder_entry :
    getBrokerList mixedSvcItems = ["10.96.0.7:9092", ""] ∧
    specBrokerEndpoints mixedSvcItems = ["10.96.0.7:9092"] ∧
    getBrokerList mixedSvcItems ≠ specBrokerEndpoints mixedSvcItems ∧
    "" ∈ getBrokerList mixedSvcItems := by
  refine ⟨rfl, rfl, by decide, by decide⟩

/-- C8 amended: broker discovery returns a list of the same length as the
service query result; each service with an assigned (non-`"None"`) virtual
address and a bootstrap-convention name contributes its `address:9092`
endpoint at its position, and every other service leaves an empty-string
placeholder at its position. -/
theorem c8_amended_brokerlist_positional (items : List K8sService) :
    (getBrokerList items).length = items.length ∧
    ∀ i : Nat,
      (getBrokerList items)[i]? =
        (items[i]?).map (fun svc =>
          if svc.ClusterIP != "None" && strHas svc.Name "bootstrap" then
            removeSpaces (svc.ClusterIP ++ ":9092")
          else "") := by
  refine ⟨by simp [getBrokerList], fun i => ?_⟩
  simp [getBrokerList]

/-- C9 counterexample: the claim says the publish path's producer is
configured to require broker acknowledgment; the configuration built by
`queueResourceForReconcile` sets `RequiredAcks = sarama.NoResponse`, which
requires no broker acknowledgment at all. -/
theorem c9_counterexample_no_broker_ack :
    specRequiresBrokerAck producerConfig = false ∧
    producerConfig.requiredAcks = RequiredAcks.noResponse := by
  exact ⟨rfl, rfl⟩

/-- C9 amended: every publish call opens its synchronous producer with
success and error return channels enabled, but with `RequiredAcks` set to
`NoResponse`, so the send is not acknowledged by the broker. -/
theorem c9_amended_producer_config :
    producerConfig.returnSuccesses = true ∧
    producerConfig.returnErrors = true ∧
    producerConfig.requiredAcks = RequiredAcks.noResponse ∧
    specRequiresBrokerAck producerConfig = false := by
  exact ⟨rfl, rfl, rfl, rfl⟩

/-- A deployment-like object owned by `10.0.0.5` with one replica. -/
def ownedOldObj : JsonObj :=
  [("metadata", .obj [("labels", .obj [(ownerLabel, .str "10.0.0.5")])]),
   ("spec", .obj [("replicas", .num 1)])]

/-- The same object with the replica count changed to two. -/
def ownedNewObj : JsonObj :=
  [("metadata", .obj [("labels", .obj [(ownerLabel, .str "10.0.0.5")])]),
   ("spec", .obj [("replicas", .num 2)])]

/-- An object carrying no ownership label, with one replica. -/
def unownedOldObj : JsonObj :=
  [("metadata", .obj [("labels", .obj [("team", .str "blue")])]),
   ("spec", .obj [("replicas", .num 1)])]

/-- The same unowned object with the replica count changed to two. -/
def unownedNewObj : JsonObj :=
  [("metadata", .obj [("labels", .obj [("team", .str "blue")])]),
   ("spec", .obj [("replicas", .num 2)])]

/-- An admission request whose old state is `ownedOldObj` and whose new
state is `ownedNewObj` (a spec change on an owned object). -/
def ownedSpecChangeReq : AdmissionRequest :=
  { UID := "u", Name := "web", Namespace := "default", Kind := "Deployment",
    Group := "apps", Version := "v1",
    OldObject := .ok ownedOldObj, Object := .ok ownedNewObj }

/-- An admission request changing the spec of an object that carries no
ownership label. -/
def unownedSpecChangeReq : AdmissionRequest :=
  { UID := "u", Name := "web", Namespace := "default", Kind := "Deployment",
    Group := "apps", Version := "v1",
    OldObject := .ok unownedOldObj, Object := .ok unownedNewObj }

/-- C4: whenever the requester identity equals the owner identity read
from the existing object's ownership label, `processResourceChanges`
returns nil patches and a nil error — allow with no patch — and makes no
publish attempt, with no condition on the old/new states (in particular
the spec may differ). -/
theorem c4_owner_match_always_allows (req : AdmissionRequest) (msgId : String)
    (pub : Option String) (eo no : JsonObj)
    (hOld : req.OldObject = .ok eo) (hNew : req.Object = .ok no)
    (senderIP : String)
    (hOwner : senderIP = lookupS (getLabels eo) ownerLabel) :
    processResourceChanges req senderIP msgId pub = ⟨none, none, []⟩ := by
  subst hOwner
  unfold processResourceChanges
  rw [hOld, hNew]
  simp [ite_self]

/-- C4 witness: the owner `10.0.0.5` changes the spec of its object and is
allowed. -/
theorem c4_witness :
    processResourceChanges ownedSpecChangeReq "10.0.0.5" "m" none =
      ⟨none, none, []⟩ :=
  c4_owner_match_always_allows ownedSpecChangeReq "m" none
    ownedOldObj ownedNewObj rfl rfl "10.0.0.5" rfl

/-- C10: when the existing object carries no ownership label the owner
identity reads as the empty string, so a requester with any non-empty
identity cannot match it: a structurally differing change whose spec
differs is denied, with one publish attempt, and (when the publish
succeeds) the spec-change denial message naming the requester. -/
theorem c10_absent_owner_label_still_denies (req : AdmissionRequest)
    (senderIP msgId : String) (pub : Option String) (eo no : JsonObj)
    (hOld : req.OldObject = .ok eo) (hNew : req.Object = .ok no)
    (hNoOwner : lookupS (getLabels eo) ownerLabel = "")
    (hSender : senderIP ≠ "")
    (hNeq : deepEqual (.obj eo) (.obj no) = false)
    (hSpec : deepEqual (indexD eo "spec") (indexD no "spec") = false) :
    (processResourceChanges req senderIP msgId pub).errMsg.isSome = true ∧
    (processResourceChanges req senderIP msgId pub).published =
      [⟨msgId, req.Name, req.Namespace, req.Kind, req.Group, req.Version⟩] ∧
    (pub = none →
      (processResourceChanges req senderIP msgId pub).errMsg =
        some (deniedSpecMsg senderIP)) := by
  have hb : (senderIP == ("" : String)) = false := by
    simpa using hSender
  unfold processResourceChanges
  rw [hOld, hNew]
  simp [hNeq, hNoOwner, hb, hSpec]
  cases pub <;> simp

/-- C10 witness: requester `10.0.0.9` changes the spec of an object with
no ownership label and is denied with one publish attempt. -/
theorem c10_witness :
    (processResourceChanges unownedSpecChangeReq "10.0.0.9" "m" none).errMsg.isSome = true ∧
    (processResourceChanges unownedSpecChangeReq "10.0.0.9" "m" none).published =
      [⟨"m", "web", "default", "Deployment", "apps", "v1"⟩] ∧
    ((none : Option String) = none →
      (processResourceChanges unownedSpecChangeReq "10.0.0.9" "m" none).errMsg =
        some (deniedSpecMsg "10.0.0.9")) :=
  c10_absent_owner_label_still_denies unownedSpecChangeReq "10.0.0.9" "m" none
    unownedOldObj unownedNewObj rfl rfl rfl (by decide)
    (by simp [unownedOldObj, unownedNewObj, deepEqual, deepSub, deepMemEq])
    (by simp [unownedOldObj, unownedNewObj, indexD, lookupJ, deepEqual,
              deepSub, deepMemEq])

/-- C2 counterexample: the claim requires the denial message of every
non-owner spec change to identify the spec-change violation and name the
requester.  When the reconciliation publish fails, the returned error is
the queue-failure message alone: it names neither the requester
`10.0.0.9` nor the spec.  (The decision is still deny, with exactly one
publish attempt.) -/
theorem c2_counterexample_queue_failure_message :
    (processResourceChanges ownedSpecChangeReq "10.0.0.9" "m"
        (some "broker unreachable")).errMsg =
      some "ERROR: failed to queue resource for reconcile: broker unreachable" ∧
    (processResourceChanges ownedSpecChangeReq "10.0.0.9" "m"
        (some "broker unreachable")).published.length = 1 ∧
    strHas "ERROR: failed to queue resource for reconcile: broker unreachable"
      "10.0.0.9" = false ∧
    strHas "ERROR: failed to queue resource for reconcile: broker unreachable"
      "Spec" = false := by
  have h1 : deepEqual (.obj ownedOldObj) (.obj ownedNewObj) = false := by
    simp [ownedOldObj, ownedNewObj, deepEqual, deepSub, deepMemEq]
  have h2 : deepEqual (indexD ownedOldObj "spec") (indexD ownedNewObj "spec") = false := by
    simp [ownedOldObj, ownedNewObj, indexD, lookupJ, deepEqual, deepSub, deepMemEq]
  have h3 : lookupS (getLabels ownedOldObj) ownerLabel = "10.0.0.5" := rfl
  refine ⟨?_, ?_, by decide, by decide⟩ <;>
    simp [processResourceChanges, ownedSpecChangeReq, h1, h2, h3, queueFailMsg]

/-- C2 amended: a non-owner change whose old and new states decode and
differ and whose spec substructure differs is always denied with exactly
one reconciliation-publish attempt; when the publish succeeds the denial
message identifies the spec-change violation and names the requester, and
when the publish fails the returned message is the queue-failure message
instead. -/
theorem c2_amended_nonowner_spec_change_denied (req : AdmissionRequest)
    (senderIP msgId : String) (pub : Option String) (eo no : JsonObj)
    (hOld : req.OldObject = .ok eo) (hNew : req.Object = .ok no)
    (hNeq : deepEqual (.obj eo) (.obj no) = false)
    (hOwn : senderIP ≠ lookupS (getLabels eo) ownerLabel)
    (hSpec : deepEqual (indexD eo "spec") (indexD no "spec") = false) :
    (processResourceChanges req senderIP msgId pub).errMsg.isSome = true ∧
    (processResourceChanges req senderIP msgId pub).published =
      [⟨msgId, req.Name, req.Namespace, req.Kind, req.Group, req.Version⟩] ∧
    (pub = none →
      (processResourceChanges req senderIP msgId pub).errMsg =
        some (deniedSpecMsg senderIP)) ∧
    (∀ e, pub = some e →
      (processResourceChanges req senderIP msgId pub).errMsg =
        some (queueFailMsg e)) := by
  have hb : (senderIP == lookupS (getLabels eo) ownerLabel) = false := by
    simpa using hOwn
  unfold processResourceChanges
  rw [hOld, hNew]
  simp [hNeq, hb, hSpec]
  cases pub <;> simp

/-- C2 witness: the amended theorem applied to the non-owner `10.0.0.9`
changing the spec of the object owned by `10.0.0.5`, with the publish
succeeding. -/
theorem c2_amended_witness :
    (processResourceChanges ownedSpecChangeReq "10.0.0.9" "w2" none).errMsg.isSome = true ∧
    (processResourceChanges ownedSpecChangeReq "10.0.0.9" "w2" none).published =
      [⟨"w2", "web", "default", "Deployment", "apps", "v1"⟩] ∧
    ((none : Option String) = none →
      (processResourceChanges ownedSpecChangeReq "10.0.0.9" "w2" none).errMsg =
        some (deniedSpecMsg "10.0.0.9")) ∧
    (∀ e, (none : Option String) = some e →
      (processResourceChanges ownedSpecChangeReq "10.0.0.9" "w2" none).errMsg =
        some (queueFailMsg e)) :=
  c2_amended_nonowner_spec_change_denied ownedSpecChangeReq "10.0.0.9" "w2" none
    ownedOldObj ownedNewObj rfl rfl
    (by simp [ownedOldObj, ownedNewObj, deepEqual, deepSub, deepMemEq])
    (by decide)
    (by simp [ownedOldObj, ownedNewObj, indexD, lookupJ, deepEqual,
              deepSub, deepMemEq])

/-- An owned object that additionally carries the non-Heimdall label
`team=blue`. -/
def labeledOldObj : JsonObj :=
  [("metadata", .obj [("labels", .obj [(ownerLabel, .str "10.0.0.5"),
                                       ("team", .str "blue")])]),
   ("spec", .obj [("replicas", .num 1)])]

/-- The same object with the non-Heimdall label changed to `team=red`
(spec untouched). -/
def labeledNewObj : JsonObj :=
  [("metadata", .obj [("labels", .obj [(ownerLabel, .str "10.0.0.5"),
                                       ("team", .str "red")])]),
   ("spec", .obj [("replicas", .num 1)])]

/-- An admission request changing only the non-Heimdall label `team`. -/
def labelChangeReq : AdmissionRequest :=
  { UID := "u", Name := "web", Namespace := "default", Kind := "Deployment",
    Group := "apps", Version := "v1",
    OldObject := .ok labeledOldObj, Object := .ok labeledNewObj }

/-- An object carrying only the non-Heimdall label `team=blue`. -/
def removedLabelOldObj : JsonObj :=
  [("metadata", .obj [("labels", .obj [("team", .str "blue")])])]

/-- The same object with the `team` label removed. -/
def removedLabelNewObj : JsonObj :=
  [("metadata", .obj [("labels", .obj [])])]

/-- An admission request that only removes the non-Heimdall label
`team`. -/
def labelRemovalReq : AdmissionRequest :=
  { UID := "u", Name := "web", Namespace := "default", Kind := "Deployment",
    Group := "apps", Version := "v1",
    OldObject := .ok removedLabelOldObj, Object := .ok removedLabelNewObj }

/-- An owned object carrying the Heimdall priority label `low`. -/
def priorityOldObj : JsonObj :=
  [("metadata", .obj [("labels", .obj [(ownerLabel, .str "10.0.0.5"),
                                       (priorityLabel, .str "low")])]),
   ("spec", .obj [("replicas", .num 1)])]

/-- The same object with the priority label changed to `high`. -/
def priorityNewObj : JsonObj :=
  [("metadata", .obj [("labels", .obj [(ownerLabel, .str "10.0.0.5"),
                                       (priorityLabel, .str "high")])]),
   ("spec", .obj [("replicas", .num 1)])]

/-- An admission request changing only the Heimdall priority label. -/
def priorityChangeReq : AdmissionRequest :=
  { UID := "u", Name := "web", Namespace := "default", Kind := "Deployment",
    Group := "apps", Version := "v1",
    OldObject := .ok priorityOldObj, Object := .ok priorityNewObj }

/-- C3 counterexample: the claim says a non-owner *removing* a label
outside the allowed set is denied.  The label scan iterates only the new
object's labels, so a pure removal is invisible: the non-Heimdall label
`team=blue` is removed by a non-owner and the request is allowed with no
patch and no publish attempt. -/
theorem c3_counterexample_label_removal_allowed :
    processResourceChanges labelRemovalReq "10.0.0.9" "m" none =
      ⟨none, none, []⟩ ∧
    lookupS (getLabels removedLabelOldObj) "team" = "blue" ∧
    getLabels removedLabelNewObj = [] ∧
    allowedLabels.contains "team" = false := by
  have h1 : deepEqual (.obj removedLabelOldObj) (.obj removedLabelNewObj) = false := by
    simp [removedLabelOldObj, removedLabelNewObj, deepEqual, deepSub, deepMemEq]
  have h2 : deepEqual (indexD removedLabelOldObj "spec")
      (indexD removedLabelNewObj "spec") = true := by
    simp [removedLabelOldObj, removedLabelNewObj, indexD, lookupJ, deepEqual]
  have h3 : lookupS (getLabels removedLabelOldObj) ownerLabel = "" := rfl
  have h4 : findOffendingLabel (getLabels removedLabelOldObj)
      (getLabels removedLabelNewObj) = none := by decide
  refine ⟨?_, rfl, rfl, by decide⟩
  simp [processResourceChanges, labelRemovalReq, h1, h2, h3, h4]

/-- C3 amended: for a non-owner change with decoded, structurally
differing states and an unchanged spec, the decision is driven by the
labels of the *new* object only: if every new-object label is either in
the allowed set or equal to the old object's value for that key (absence
reading as the empty string), the request is allowed with no patch and no
publish; if some new-object label is outside the allowed set with a
differing value, the request is denied with one publish attempt, and (when
the publish succeeds) the message names an offending label key and value.
Pure label removals, and additions carrying the empty-string value, are
not detected. -/
theorem c3_amended_new_label_scan_policy (req : AdmissionRequest)
    (senderIP msgId : String) (pub : Option String) (eo no : JsonObj)
    (hOld : req.OldObject = .ok eo) (hNew : req.Object = .ok no)
    (hNeq : deepEqual (.obj eo) (.obj no) = false)
    (hOwn : senderIP ≠ lookupS (getLabels eo) ownerLabel)
    (hSpec : deepEqual (indexD eo "spec") (indexD no "spec") = true) :
    ((∀ kv ∈ getLabels no, kv.1 ∈ allowedLabels ∨ lookupS (getLabels eo) kv.1 = kv.2) →
      processResourceChanges req senderIP msgId pub = ⟨none, none, []⟩) ∧
    ((∃ kv ∈ getLabels no, kv.1 ∉ allowedLabels ∧ lookupS (getLabels eo) kv.1 ≠ kv.2) →
      (processResourceChanges req senderIP msgId pub).errMsg.isSome = true ∧
      (processResourceChanges req senderIP msgId pub).published.length = 1 ∧
      (pub = none → ∃ kv ∈ getLabels no, kv.1 ∉ allowedLabels ∧
        lookupS (getLabels eo) kv.1 ≠ kv.2 ∧
        (processResourceChanges req senderIP msgId pub).errMsg =
          some (deniedLabelMsg kv.1 kv.2))) := by
  have hb : (senderIP == lookupS (getLabels eo) ownerLabel) = false := by
    simpa using hOwn
  constructor
  · intro hall
    have hnone : findOffendingLabel (getLabels eo) (getLabels no) = none := by
      unfold findOffendingLabel
      rw [List.find?_eq_none]
      intro kv hkv
      rcases hall kv hkv with h | h
      · simp [h]
      · simp [h]
    unfold processResourceChanges
    rw [hOld, hNew]
    simp [hNeq, hb, hSpec, hnone]
  · intro hex
    have hsome : (findOffendingLabel (getLabels eo) (getLabels no)).isSome := by
      unfold findOffendingLabel
      rw [List.find?_isSome]
      rcases hex with ⟨kv, hkv, hout, hne⟩
      refine ⟨kv, hkv, ?_⟩
      have h1 : allowedLabels.contains kv.1 = false := by simpa using hout
      have h2 : (lookupS (getLabels eo) kv.1 == kv.2) = false := by
        simpa [beq_eq_false_iff_ne] using hne
      simp only [h1, h2]
      rfl
    rcases hfind : findOffendingLabel (getLabels eo) (getLabels no) with _ | kv
    · rw [hfind] at hsome; simp at hsome
    · have hfind2 := hfind
      unfold findOffendingLabel at hfind2
      have hp := List.find?_some hfind2
      have hmem := List.mem_of_find?_eq_some hfind2
      simp only [Bool.and_eq_true, Bool.not_eq_true'] at hp
      unfold processResourceChanges
      rw [hOld, hNew]
      simp [hNeq, hb, hSpec, hfind]
      cases pub with
      | none =>
        simp
        refine ⟨kv.1, kv.2, hmem, ?_, ?_, rfl⟩
        · simpa using hp.1
        · simpa [beq_eq_false_iff_ne] using hp.2
      | some e => simp

/-- C3 witness: the amended theorem's allow branch applied to a non-owner
changing only the Heimdall priority label. -/
theorem c3_amended_witness :
    processResourceChanges priorityChangeReq "10.0.0.9" "m" none =
      ⟨none, none, []⟩ :=
  (c3_amended_new_label_scan_policy priorityChangeReq "10.0.0.9" "m" none
    priorityOldObj priorityNewObj rfl rfl
    (by simp [priorityOldObj, priorityNewObj, deepEqual, deepSub, deepMemEq])
    (by decide)
    (by simp [priorityOldObj, priorityNewObj, indexD, lookupJ, deepEqual,
              deepSub, deepMemEq])).1 (by decide)

/-- C6 counterexample: the claim says an enqueue failure is appended to
the denial's message.  On a non-owner label change whose publish fails,
the returned message is the queue-failure message alone — the denial text
(which starts with "DENIED") is absent entirely — though the decision does
remain deny. -/
theorem c6_counterexample_queue_failure_replaces_denial :
    (processResourceChanges labelChangeReq "10.0.0.9" "m"
        (some "send failed")).errMsg =
      some "ERROR: failed to queue resource for reconcile: send failed" ∧
    strHas "ERROR: failed to queue resource for reconcile: send failed"
      "DENIED" = false ∧
    (processResourceChanges labelChangeReq "10.0.0.9" "m"
        (some "send failed")).errMsg.isSome = true := by
  have h1 : deepEqual (.obj labeledOldObj) (.obj labeledNewObj) = false := by
    simp [labeledOldObj, labeledNewObj, deepEqual, deepSub, deepMemEq]
  have h2 : deepEqual (indexD labeledOldObj "spec")
      (indexD labeledNewObj "spec") = true := by
    simp [labeledOldObj, labeledNewObj, indexD, lookupJ, deepEqual,
          deepSub, deepMemEq]
  have h3 : lookupS (getLabels labeledOldObj) ownerLabel = "10.0.0.5" := rfl
  have h4 : findOffendingLabel (getLabels labeledOldObj)
      (getLabels labeledNewObj) = some ("team", "red") := by decide
  refine ⟨?_, by decide, ?_⟩ <;>
    simp [processResourceChanges, labelChangeReq, h1, h2, h3, h4, queueFailMsg]

/-- C6 amended: on both policy-denial paths (spec change, and offending
label change), a failing enqueue makes the returned error exactly the
queue-failure message — it replaces the policy denial text rather than
being appended to it — while the decision remains deny (an error is still
returned) and the publish attempt is still recorded. -/
theorem c6_amended_queue_failure_replaces_message (req : AdmissionRequest)
    (senderIP msgId e : String) (eo no : JsonObj)
    (hOld : req.OldObject = .ok eo) (hNew : req.Object = .ok no)
    (hNeq : deepEqual (.obj eo) (.obj no) = false)
    (hOwn : senderIP ≠ lookupS (getLabels eo) ownerLabel) :
    (deepEqual (indexD eo "spec") (indexD no "spec") = false →
      (processResourceChanges req senderIP msgId (some e)).errMsg =
        some (queueFailMsg e) ∧
      (processResourceChanges req senderIP msgId (some e)).published ≠ []) ∧
    (∀ kv, deepEqual (indexD eo "spec") (indexD no "spec") = true →
      findOffendingLabel (getLabels eo) (getLabels no) = some kv →
      (processResourceChanges req senderIP msgId (some e)).errMsg =
        some (queueFailMsg e) ∧
      (processResourceChanges req senderIP msgId (some e)).published ≠ []) := by
  have hb : (senderIP == lookupS (getLabels eo) ownerLabel) = false := by
    simpa using hOwn
  unfold processResourceChanges
  rw [hOld, hNew]
  simp [hNeq, hb]
  constructor
  · intro hSpec
    simp [hSpec]
  · intro k v hSpec hFind
    simp [hSpec, hFind]

/-- C6 witness: the amended theorem's label branch applied to the
non-owner label change whose publish fails with "broker down". -/
theorem c6_amended_witness :
    (processResourceChanges labelChangeReq "10.0.0.9" "w6"
        (some "broker down")).errMsg =
      some (queueFailMsg "broker down") ∧
    (processResourceChanges labelChangeReq "10.0.0.9" "w6"
        (some "broker down")).published ≠ [] :=
  (c6_amended_queue_failure_replaces_message labelChangeReq "10.0.0.9" "w6"
    "broker down" labeledOldObj labeledNewObj rfl rfl
    (by simp [labeledOldObj, labeledNewObj, deepEqual, deepSub, deepMemEq])
    (by decide)).2 ("team", "red")
    (by simp [labeledOldObj, labeledNewObj, indexD, lookupJ, deepEqual,
              deepSub, deepMemEq])
    (by decide)

/-- C5: a reconciliation publish is attempted only on a policy-denial
path.  First part: whenever `processResourceChanges` records a publish
attempt, both object payloads decoded, the states differed structurally,
the requester did not match the owner, the spec differed or an offending
label existed, and the decision was a denial — so decode failures,
owner-matched changes, no-op changes and every allow path make no attempt.
Second part: whenever the transport fails (wrong method, unreadable body,
wrong content type, undecodable envelope, missing inner request), the
policy engine is never invoked, so no publish attempt can occur. -/
theorem c5_publish_only_on_policy_denial :
    (∀ (req : AdmissionRequest) (senderIP msgId : String) (pub : Option String),
      (processResourceChanges req senderIP msgId pub).published ≠ [] →
        ∃ eo no, req.OldObject = .ok eo ∧ req.Object = .ok no ∧
          deepEqual (.obj eo) (.obj no) = false ∧
          senderIP ≠ lookupS (getLabels eo) ownerLabel ∧
          (deepEqual (indexD eo "spec") (indexD no "spec") = false ∨
            (findOffendingLabel (getLabels eo) (getLabels no)).isSome = true) ∧
          (processResourceChanges req senderIP msgId pub).errMsg.isSome = true) ∧
    (∀ (r : HttpRequest) (adm : AdmitFunc) (st : Nat) (msg : String),
      (doServeAdmitFunc r adm).1 = .fail st msg →
        TEvent.invokeAdmit ∉ (doServeAdmitFunc r adm).2) := by
  constructor
  · intro req senderIP msgId pub hpub
    cases hOld : req.OldObject with
    | bad e => simp [processResourceChanges, hOld] at hpub
    | ok eo =>
      cases hNew : req.Object with
      | bad e => simp [processResourceChanges, hOld, hNew] at hpub
      | ok no =>
        cases hde : deepEqual (.obj eo) (.obj no) with
        | true => simp [processResourceChanges, hOld, hNew, hde] at hpub
        | false =>
          cases hown : (senderIP == lookupS (getLabels eo) ownerLabel) with
          | true => simp [processResourceChanges, hOld, hNew, hde, hown] at hpub
          | false =>
            have hne : senderIP ≠ lookupS (getLabels eo) ownerLabel := by
              simpa [beq_eq_false_iff_ne] using hown
            cases hspec : deepEqual (indexD eo "spec") (indexD no "spec") with
            | false =>
              refine ⟨eo, no, rfl, rfl, hde, hne, Or.inl hspec, ?_⟩
              unfold processResourceChanges
              rw [hOld, hNew]
              simp [hde, hown, hspec]
              cases pub <;> simp
            | true =>
              cases hfind : findOffendingLabel (getLabels eo) (getLabels no) with
              | none =>
                simp [processResourceChanges, hOld, hNew, hde, hown, hspec,
                      hfind] at hpub
              | some kv =>
                refine ⟨eo, no, rfl, rfl, hde, hne,
                  Or.inr (by simp [hfind]), ?_⟩
                unfold processResourceChanges
                rw [hOld, hNew]
                simp [hde, hown, hspec, hfind]
                cases pub <;> simp
  · intro r adm st msg h
    cases hmm : (r.method != "POST") with
    | true => simp [doServeAdmitFunc, hmm]
    | false =>
      cases hb : r.body with
      | error e => simp [doServeAdmitFunc, hmm, hb]
      | ok env =>
        cases hct : (r.contentType != jsonContentType) with
        | true => simp [doServeAdmitFunc, hmm, hb, hct]
        | false =>
          cases env with
          | undecodable e => simp [doServeAdmitFunc, hmm, hb, hct]
          | nilRequest => simp [doServeAdmitFunc, hmm, hb, hct]
          | withRequest areq objectJson =>
            cases hk : isKubeNamespace areq.Namespace with
            | true => simp [doServeAdmitFunc, hmm, hb, hct, hk]
            | false =>
              simp only [doServeAdmitFunc, hmm, hb, hct, hk] at h
              simp at h
              split at h <;> simp at h

/-- C5 witness: the first part applied to the concrete unowned spec change
(which does publish), and the second part applied to a concrete GET
request (which fails at the transport without invoking the policy
engine). -/
theorem c5_witness :
    (∃ eo no, unownedSpecChangeReq.OldObject = .ok eo ∧
      unownedSpecChangeReq.Object = .ok no ∧
      deepEqual (.obj eo) (.obj no) = false ∧
      "10.0.0.9" ≠ lookupS (getLabels eo) ownerLabel ∧
      (deepEqual (indexD eo "spec") (indexD no "spec") = false ∨
        (findOffendingLabel (getLabels eo) (getLabels no)).isSome = true) ∧
      (processResourceChanges unownedSpecChangeReq "10.0.0.9" "w5"
          none).errMsg.isSome = true) ∧
    TEvent.invokeAdmit ∉
      (doServeAdmitFunc
        { method := "GET", contentType := "application/json",
          remoteAddr := "10.0.0.9:1", body := .ok .nilRequest }
        noopAdmit).2 := by
  constructor
  · refine c5_publish_only_on_policy_denial.1 unownedSpecChangeReq
      "10.0.0.9" "w5" none ?_
    have h1 : deepEqual (.obj unownedOldObj) (.obj unownedNewObj) = false := by
      simp [unownedOldObj, unownedNewObj, deepEqual, deepSub, deepMemEq]
    have h2 : deepEqual (indexD unownedOldObj "spec")
        (indexD unownedNewObj "spec") = false := by
      simp [unownedOldObj, unownedNewObj, indexD, lookupJ, deepEqual,
            deepSub, deepMemEq]
    have h3 : lookupS (getLabels unownedOldObj) ownerLabel = "" := rfl
    simp [processResourceChanges, unownedSpecChangeReq, h1, h2, h3]
  · exact c5_publish_only_on_policy_denial.2 _ noopAdmit 405
      (invalidMethodMsg "GET") rfl

end Heimdall
